import Mathlib

/-!
Verification of the Analysis Aggregation Engine specification against the
relational schema in src/DATABASE_SCHEMA.sql.

The schema is the only part of the aggregation core present in the
repository sources: the tables (text_analysis, clusters, frequency_analysis,
and the tables joined by the views), the trigger function
update_cluster_size (fired AFTER INSERT OR UPDATE OR DELETE on
text_analysis, FOR EACH ROW), and the views project_stats and top_keywords.

Shallow embedding conventions:
  * a table is a list of row structures; SERIAL ids are carried explicitly
    in the row, nullable columns are Option;
  * FLOAT columns touched by the claims (sentiment_score,
    confidence_score, avg_sentiment) are embedded as Rat, INTEGER as Int;
  * JSONB and TIMESTAMP columns that no modelled operation reads or writes
    (keywords_extracted, topics, pain_points, sentiment_label, metadata,
    created_at, ...) are omitted from the row structures;
  * SQL three-valued logic is made explicit: a comparison with a NULL
    operand yields NULL, and both a WHERE clause and a plpgsql IF treat
    NULL as not-true, so such comparisons are embedded as Bool false.
-/

namespace AggregationSchema

/-- Row of the text_analysis table (DATABASE_SCHEMA.sql lines 94-105).
data_id references collected_data(id) ON DELETE CASCADE and is nullable;
cluster_id is a plain nullable INTEGER with no foreign key and no check. -/
structure TextAnalysisRow where
  id : Nat
  data_id : Option Nat
  sentiment_score : Option Rat
  cluster_id : Option Nat
  confidence_score : Option Rat
  deriving DecidableEq

/-- Row of the clusters table (lines 110-119). size is INTEGER DEFAULT 0
with no non-negativity check; avg_sentiment is a nullable FLOAT that no
trigger or view ever writes. -/
structure Cluster where
  id : Nat
  project_id : Option Nat
  size : Int
  avg_sentiment : Option Rat
  deriving DecidableEq

/-- Row of the projects table (lines 22-30); only the columns the
project_stats view reads. -/
structure Project where
  id : Nat
  user_id : Option Nat
  deriving DecidableEq

/-- Row of the keywords table (lines 35-43); only the join columns. -/
structure Keyword where
  id : Nat
  project_id : Option Nat
  deriving DecidableEq

/-- Row of the search_tasks table (lines 60-72); only the join columns. -/
structure SearchTask where
  id : Nat
  project_id : Option Nat
  deriving DecidableEq

/-- Row of the collected_data table (lines 77-89); only the join columns.
task_id references search_tasks(id) ON DELETE CASCADE. -/
structure CollectedData where
  id : Nat
  task_id : Option Nat
  deriving DecidableEq

/-- Row of the reports table (lines 138-150); only the join columns. -/
structure Report where
  id : Nat
  project_id : Option Nat
  deriving DecidableEq

/-- Row of the frequency_analysis table (lines 124-133); the columns the
top_keywords view ranks by. project_id is nullable, term and frequency are
NOT NULL. -/
structure FreqRow where
  id : Nat
  project_id : Option Nat
  term : String
  frequency : Int
  deriving DecidableEq

/-- The relational state: one list per table of the schema that the claims
touch. -/
structure DB where
  projects : List Project
  keywords : List Keyword
  search_tasks : List SearchTask
  collected_data : List CollectedData
  clusters : List Cluster
  reports : List Report
  text_analysis : List TextAnalysisRow
  frequency_analysis : List FreqRow
  deriving DecidableEq

/-- The empty database. -/
def DB.empty : DB := ⟨[], [], [], [], [], [], [], []⟩

/-! ## The update_cluster_size trigger (lines 225-255) -/

/-- Embedding of `UPDATE clusters SET size = size + delta WHERE id = target`
with a possibly NULL target: `id = NULL` is NULL, hence not-true, so a NULL
target updates no row; a target id absent from the table likewise updates
no row (cluster_id carries no foreign key, so that case is reachable). -/
def updateClustersSize (cs : List Cluster) (target : Option Nat) (delta : Int) :
    List Cluster :=
  match target with
  | none => cs
  | some t => cs.map (fun c => if c.id = t then { c with size := c.size + delta } else c)

/-- Embedding of the plpgsql test `OLD.cluster_id != NEW.cluster_id` in the
trigger (line 232). SQL `!=` with a NULL operand yields NULL, and the IF
treats NULL as not-true, so the comparison is true only when both sides are
non-NULL and differ. The source does not use IS DISTINCT FROM. -/
def sqlNeq (a b : Option Nat) : Bool :=
  match a, b with
  | some x, some y => x != y
  | _, _ => false

/-- INSERT on text_analysis followed by the AFTER INSERT branch of the
trigger (lines 228-231): append the row, then
`UPDATE clusters SET size = size + 1 WHERE id = NEW.cluster_id`.
The caller supplies the SERIAL id explicitly. -/
def insertAnalysis (st : DB) (row : TextAnalysisRow) : DB :=
  { st with
      text_analysis := st.text_analysis ++ [row],
      clusters := updateClustersSize st.clusters row.cluster_id 1 }

/-- UPDATE of cluster_id on the text_analysis row with the given id,
followed by the AFTER UPDATE branch of the trigger (lines 232-238): when
`OLD.cluster_id != NEW.cluster_id` is true, decrement the OLD cluster and
increment the NEW one; when the test is false or NULL, no cluster row is
touched. A row id absent from the table updates nothing. -/
def reassignCluster (st : DB) (rowId : Nat) (newCid : Option Nat) : DB :=
  match st.text_analysis.find? (fun r => r.id == rowId) with
  | none => st
  | some old =>
    { st with
        text_analysis := st.text_analysis.map
          (fun r => if r.id == rowId then { r with cluster_id := newCid } else r),
        clusters :=
          if sqlNeq old.cluster_id newCid then
            updateClustersSize (updateClustersSize st.clusters old.cluster_id (-1))
              newCid 1
          else st.clusters }

/-- DELETE of the text_analysis row with the given id, followed by the
AFTER DELETE branch of the trigger (lines 239-242):
`UPDATE clusters SET size = size - 1 WHERE id = OLD.cluster_id`. -/
def deleteAnalysis (st : DB) (rowId : Nat) : DB :=
  match st.text_analysis.find? (fun r => r.id == rowId) with
  | none => st
  | some old =>
    { st with
        text_analysis := st.text_analysis.filter (fun r => !(r.id == rowId)),
        clusters := updateClustersSize st.clusters old.cluster_id (-1) }

/-- DELETE on collected_data (deleting a document): the row is removed and
the ON DELETE CASCADE on text_analysis.data_id (line 96) deletes every
analysis row referencing it, each cascaded deletion firing the AFTER DELETE
branch of the trigger. -/
def deleteDocument (st : DB) (docId : Nat) : DB :=
  let victims := st.text_analysis.filter (fun r => r.data_id == some docId)
  { st with
      collected_data := st.collected_data.filter (fun c => !(c.id == docId)),
      text_analysis := st.text_analysis.filter (fun r => !(r.data_id == some docId)),
      clusters := victims.foldl
        (fun cs r => updateClustersSize cs r.cluster_id (-1)) st.clusters }

/-- INSERT INTO clusters with the column defaults of lines 110-119:
size DEFAULT 0, avg_sentiment NULL. -/
def createCluster (st : DB) (cid : Nat) (pid : Option Nat) : DB :=
  { st with clusters := st.clusters ++
      [{ id := cid, project_id := pid, size := 0, avg_sentiment := none }] }

/-! ## The size invariant -/

/-- Number of text_analysis rows currently assigned to cluster k. -/
def countInCluster (st : DB) (k : Nat) : Int :=
  ((st.text_analysis.filter (fun r => r.cluster_id == some k)).length : Int)

/-- Decidable form of: every stored cluster size equals the number of
text_analysis rows pointing at that cluster. -/
def sizeInv (st : DB) : Bool :=
  st.clusters.all (fun c => c.size == countInCluster st c.id)

/-! ## The top_keywords view (lines 283-291) -/

/-- The window expression
RANK() OVER (PARTITION BY fa.project_id ORDER BY fa.frequency DESC):
the rank of a row is one more than the number of rows of the same
partition with strictly greater frequency. Rows tied on frequency are
peers and share a rank, and the rank after a group of ties skips by the
size of the group. The ORDER BY names no further key, so the view fixes
no order among tied terms; PARTITION BY groups NULL project ids together,
which Option equality mirrors. -/
def rankInView (tbl : List FreqRow) (r : FreqRow) : Nat :=
  1 + (tbl.filter (fun x => x.project_id == r.project_id && r.frequency < x.frequency)).length

/-- The top_keywords view: every frequency_analysis row paired with its
window rank. The view has no ORDER BY of its own, so the list order here
carries no meaning; theorems about the view use membership only. -/
def top_keywords (db : DB) : List (FreqRow × Nat) :=
  db.frequency_analysis.map (fun r => (r, rankInView db.frequency_analysis r))

/-! ## The project_stats view (lines 262-280) -/

/-- One row of the left-join chain in the project_stats view, carrying the
joined columns that the aggregate expressions read. -/
structure StatsRow where
  k : Option Keyword
  st : Option SearchTask
  cd : Option CollectedData
  c : Option Cluster
  r : Option Report
  ta : Option TextAnalysisRow
  deriving DecidableEq

/-- LEFT JOIN semantics for one join step: the matching rows of the joined
table, or a single NULL row when nothing matches. -/
def leftMatches {β : Type} (tbl : List β) (cond : β → Bool) : List (Option β) :=
  match tbl.filter cond with
  | [] => [none]
  | ms => ms.map some

/-- The FROM clause of the project_stats view for one project row: the
left-join chain
projects LEFT JOIN keywords ON p.id = k.project_id
LEFT JOIN search_tasks ON p.id = st.project_id
LEFT JOIN collected_data ON st.id = cd.task_id
LEFT JOIN clusters ON p.id = c.project_id
LEFT JOIN reports ON p.id = r.project_id
LEFT JOIN text_analysis ON cd.id = ta.data_id.
A condition that reads a column of a NULL-extended row compares with NULL
and is therefore not-true, which the inner match encodes. -/
def projectStatsRows (db : DB) (p : Project) : List StatsRow :=
  (leftMatches db.keywords (fun k => k.project_id == some p.id)).flatMap (fun k =>
  (leftMatches db.search_tasks (fun s => s.project_id == some p.id)).flatMap (fun s =>
  (leftMatches db.collected_data (fun cd => match s with
      | some s0 => cd.task_id == some s0.id
      | none => false)).flatMap (fun cd =>
  (leftMatches db.clusters (fun c => c.project_id == some p.id)).flatMap (fun c =>
  (leftMatches db.reports (fun r => r.project_id == some p.id)).flatMap (fun r =>
  (leftMatches db.text_analysis (fun ta => match cd with
      | some d => ta.data_id == some d.id
      | none => false)).map (fun ta =>
  ⟨k, s, cd, c, r, ta⟩))))))

/-- COUNT(DISTINCT col): the number of distinct non-NULL values. -/
def countDistinct (l : List (Option Nat)) : Nat :=
  ((l.filterMap id).dedup).length

/-- AVG(col): NULL values are ignored; the average over no values is NULL,
not zero. -/
def sqlAvg (l : List (Option Rat)) : Option Rat :=
  match l.filterMap id with
  | [] => none
  | vs => some (vs.sum / (vs.length : Rat))

/-- The SELECT list of the project_stats view for one project. -/
structure ProjectStats where
  keywords_count : Nat
  tasks_count : Nat
  collected_data_count : Nat
  clusters_count : Nat
  reports_count : Nat
  avg_sentiment : Option Rat
  deriving DecidableEq

/-- The project_stats view evaluated at one project: the five
COUNT(DISTINCT id) aggregates and AVG(ta.sentiment_score) over the
left-join chain, grouped by the project. -/
def project_stats (db : DB) (p : Project) : ProjectStats :=
  let rows := projectStatsRows db p
  { keywords_count := countDistinct (rows.map (fun row => row.k.map Keyword.id)),
    tasks_count := countDistinct (rows.map (fun row => row.st.map SearchTask.id)),
    collected_data_count := countDistinct (rows.map (fun row => row.cd.map CollectedData.id)),
    clusters_count := countDistinct (rows.map (fun row => row.c.map Cluster.id)),
    reports_count := countDistinct (rows.map (fun row => row.r.map Report.id)),
    avg_sentiment := sqlAvg (rows.map (fun row => row.ta.bind TextAnalysisRow.sentiment_score)) }

/-! ## The Result Store boundary (component absent from the sources)

The repository sources contain only the schema of the aggregation core;
the Result Store service that fronts the text_analysis table is not among
them, and the schema itself declares sentiment_score and confidence_score
as plain FLOAT columns with no CHECK constraint. The validation behaviour
is therefore modelled from the specification text. -/

/-- Modelled from the spec: the error raised at the Result Store boundary
for a malformed result. The service code raising it is not in the source
tree. -/
inductive RecordError where
  | validation
  deriving DecidableEq

/-- Modelled from the spec: the range check of the Result Store contract,
record fails with ValidationError if sentiment_score or confidence are out
of range, with sentiment_score in [-1.0, 1.0] and confidence in [0.0, 1.0].
The schema leaves both columns nullable, so a NULL passes the check. -/
def inRanges (row : TextAnalysisRow) : Bool :=
  (match row.sentiment_score with
   | none => true
   | some s => decide (-1 ≤ s) && decide (s ≤ 1)) &&
  (match row.confidence_score with
   | none => true
   | some c => decide (0 ≤ c) && decide (c ≤ 1))

/-- Modelled from the spec: record(result) at the Result Store boundary.
A result failing the range check is rejected with ValidationError and
nothing is written, so the database value is returned only on success; a
passing result is persisted through the schema insert path, which fires
the update_cluster_size trigger. -/
def recordResult (st : DB) (row : TextAnalysisRow) : Except RecordError DB :=
  if inRanges row then Except.ok (insertAnalysis st row)
  else Except.error RecordError.validation

/-! ## Concrete states used by the theorems -/

/-- A state satisfying the size invariant: one cluster of size 0 and one
unclustered analysis row. -/
def dbNullReassign : DB := { DB.empty with
  clusters := [⟨1, some 1, 0, none⟩],
  text_analysis := [⟨1, none, none, none, none⟩] }

/-- One existing cluster of size 0 and one unclustered analysis row, about
to be assigned to that cluster. -/
def dbFromNull : DB := { DB.empty with
  clusters := [⟨2, some 1, 0, none⟩],
  text_analysis := [⟨1, none, none, none, none⟩] }

/-- Clusters of sizes 5 and 3 and one analysis row assigned to the first,
about to be reassigned to the second. -/
def dbFiveThree : DB := { DB.empty with
  clusters := [⟨1, some 1, 5, none⟩, ⟨2, some 1, 3, none⟩],
  text_analysis := [⟨1, none, none, some 1, none⟩] }

/-- One cluster of size 0 awaiting a duplicate delivery. -/
def dbDup : DB := { DB.empty with clusters := [⟨1, some 1, 0, none⟩] }

/-- First delivery of a result for document 7. -/
def dupOnce : DB := insertAnalysis dbDup ⟨1, some 7, some (1/2), some 1, some (9/10)⟩

/-- Second delivery of the same payload for document 7; only the SERIAL id
differs, as it would on a second INSERT. -/
def dupTwice : DB := insertAnalysis dupOnce ⟨2, some 7, some (1/2), some 1, some (9/10)⟩

/-- Project 1 with four collected documents and a freshly created cluster
of default size 0. -/
def dbScenario : DB := createCluster { DB.empty with
    projects := [⟨1, none⟩],
    search_tasks := [⟨1, some 1⟩],
    collected_data := [⟨101, some 1⟩, ⟨102, some 1⟩, ⟨103, some 1⟩, ⟨104, some 1⟩] } 1 (some 1)

/-- The four documents analyzed with sentiments 0.5, -0.2, 0.8 and 0.1,
every result assigned to cluster 1. -/
def scenarioFour : DB :=
  insertAnalysis (insertAnalysis (insertAnalysis (insertAnalysis dbScenario
    ⟨1, some 101, some (1/2), some 1, some 1⟩)
    ⟨2, some 102, some (-(1/5)), some 1, some 1⟩)
    ⟨3, some 103, some (4/5), some 1, some 1⟩)
    ⟨4, some 104, some (1/10), some 1, some 1⟩

/-- Deletion of document 103, the one whose sentiment is 0.8. -/
def scenarioAfterDelete : DB := deleteDocument scenarioFour 103

/-- A project whose frequency table holds bug with frequency 10, slow with
frequency 10 and crash with frequency 7. -/
def freqExample : DB := { DB.empty with
  frequency_analysis :=
    [⟨1, some 1, "bug", 10⟩, ⟨2, some 1, "slow", 10⟩, ⟨3, some 1, "crash", 7⟩] }

/-- Project 1 with no keywords, tasks, clusters or reports of its own;
every stored row belongs to project 2, and the one collected_data row
hangs off the task of project 2. -/
def dbNoTasks : DB := { DB.empty with
  projects := [⟨1, some 1⟩, ⟨2, some 1⟩],
  keywords := [⟨1, some 2⟩],
  search_tasks := [⟨1, some 2⟩],
  collected_data := [⟨10, some 1⟩],
  clusters := [⟨1, some 2, 0, none⟩],
  reports := [⟨1, some 2⟩] }

/-- A document with one analysis result assigned to cluster 1 of size 5. -/
def dbDocDelete : DB := { DB.empty with
  collected_data := [⟨7, some 1⟩],
  clusters := [⟨1, some 1, 5, none⟩],
  text_analysis := [⟨1, some 7, none, some 1, none⟩] }

/-- Insert a result pointing at the not-yet-existing cluster 5, then create
cluster 5 with the default size 0, then delete the result. -/
def dbNegative : DB :=
  deleteAnalysis
    (createCluster (insertAnalysis DB.empty ⟨1, none, none, some 5, none⟩) 5 (some 1)) 1

/-! ## Theorems for the claims -/

/-- C1: the claim states that every sequence of insert, cluster-id update
and delete operations applied through the update_cluster_size trigger
preserves the invariant that every stored cluster size equals the number
of text_analysis rows assigned to that cluster. The code violates it: on a
state where the invariant holds, a single UPDATE moving a row from NULL
cluster to cluster 1 leaves the size at 0 while the row count becomes 1,
because the trigger test OLD.cluster_id != NEW.cluster_id yields NULL when
OLD.cluster_id is NULL and the IF treats NULL as not-true, so no branch
runs. -/
theorem null_reassign_breaks_size_invariant :
    sizeInv dbNullReassign = true ∧
    sizeInv (reassignCluster dbNullReassign 1 (some 1)) = false ∧
    countInCluster (reassignCluster dbNullReassign 1 (some 1)) 1 = 1 ∧
    (reassignCluster dbNullReassign 1 (some 1)).clusters = [⟨1, some 1, 0, none⟩] := by
  decide

/-- C2 counterexample: the claim states that on a project with terms bug
at frequency 10, slow at frequency 10 and crash at frequency 7, the
top_keywords view returns crash at rank 2. The view uses RANK(), which
skips ranks after ties, so crash is ranked 3, not 2. -/
theorem top_keywords_crash_ranked_third :
    (⟨3, some 1, "crash", 7⟩, 3) ∈ top_keywords freqExample ∧
    ¬ (⟨3, some 1, "crash", 7⟩, 2) ∈ top_keywords freqExample := by
  decide

/-- C2 amended: the top_keywords view assigns RANK() per project ordered
by frequency descending with no further key: tied terms share a rank, the
rank after a group of ties skips by the size of the group, and no order
among tied terms and no output order is fixed. On the example, bug and
slow share rank 1 and crash has rank 3. -/
theorem top_keywords_rank_gaps_after_ties :
    (⟨1, some 1, "bug", 10⟩, 1) ∈ top_keywords freqExample ∧
    (⟨2, some 1, "slow", 10⟩, 1) ∈ top_keywords freqExample ∧
    (⟨3, some 1, "crash", 7⟩, 3) ∈ top_keywords freqExample := by
  decide

/-- C3 counterexample: the claim states that delivering the same result
twice for the same document is detected as a duplicate and leaves every
aggregate at its single-delivery value. The schema has no unique
constraint on data_id and no duplicate check, so the second INSERT stores
a second row and fires the trigger again: the cluster size is 2 after two
deliveries but 1 after one. -/
theorem double_delivery_changes_aggregates :
    dupOnce.clusters = [⟨1, some 1, 1, none⟩] ∧
    dupTwice.clusters = [⟨1, some 1, 2, none⟩] ∧
    dupOnce.text_analysis.length = 1 ∧
    dupTwice.text_analysis.length = 2 := by
  decide

/-- C3 amended: recording the same result twice is not a no-op. Both
deliveries are stored as separate rows and each INSERT increments the
target cluster size, so after two deliveries the cluster size exceeds its
single-delivery value by one. -/
theorem double_delivery_double_counts
    (st : DB) (r1 r2 : TextAnalysisRow) (k : Nat) (c : Cluster)
    (h1 : r1.cluster_id = some k) (h2 : r2.cluster_id = some k)
    (hc : c ∈ st.clusters) (hid : c.id = k) :
    { c with size := c.size + 1 } ∈ (insertAnalysis st r1).clusters ∧
    { c with size := c.size + 1 + 1 } ∈ (insertAnalysis (insertAnalysis st r1) r2).clusters ∧
    (insertAnalysis (insertAnalysis st r1) r2).text_analysis = st.text_analysis ++ [r1, r2] := by
  have e1 : (insertAnalysis st r1).clusters =
      st.clusters.map (fun x => if x.id = k then { x with size := x.size + 1 } else x) := by
    simp only [insertAnalysis, h1, updateClustersSize]
  have e2 : (insertAnalysis (insertAnalysis st r1) r2).clusters =
      ((insertAnalysis st r1).clusters).map
        (fun x => if x.id = k then { x with size := x.size + 1 } else x) := by
    simp only [insertAnalysis, h2, updateClustersSize]
  refine ⟨?_, ?_, ?_⟩
  · rw [e1]
    have hm := List.mem_map_of_mem
      (fun x => if x.id = k then { x with size := x.size + 1 } else x) hc
    simpa [hid] using hm
  · rw [e2, e1]
    have hm1 := List.mem_map_of_mem
      (fun x => if x.id = k then { x with size := x.size + 1 } else x) hc
    have hm2 := List.mem_map_of_mem
      (fun x => if x.id = k then { x with size := x.size + 1 } else x) hm1
    simpa [hid] using hm2
  · simp [insertAnalysis]

/-- C3 witness: the amended theorem applied to the duplicate-delivery
state, with every hypothesis discharged by evaluation. -/
theorem double_delivery_double_counts_witness :
    ({ id := 1, project_id := some 1, size := 1, avg_sentiment := none } : Cluster) ∈
      dupOnce.clusters ∧
    ({ id := 1, project_id := some 1, size := 2, avg_sentiment := none } : Cluster) ∈
      dupTwice.clusters := by
  have h := double_delivery_double_counts dbDup
    ⟨1, some 7, some (1/2), some 1, some (9/10)⟩
    ⟨2, some 7, some (1/2), some 1, some (9/10)⟩
    1 ⟨1, some 1, 0, none⟩ rfl rfl (by decide) rfl
  exact ⟨h.1, h.2.1⟩

/-- C4: the claim states that reassigning a result from NULL to cluster B
increments the size of B by one. The code violates it: with cluster 2 at
size 0 and an unclustered row, the UPDATE assigning the row to cluster 2
stores the new cluster id but leaves the size of cluster 2 at 0, because
the trigger test OLD.cluster_id != NEW.cluster_id yields NULL when
OLD.cluster_id is NULL and no branch runs. -/
theorem reassign_from_null_skips_increment :
    (reassignCluster dbFromNull 1 (some 2)).text_analysis = [⟨1, none, none, some 2, none⟩] ∧
    (reassignCluster dbFromNull 1 (some 2)).clusters = [⟨2, some 1, 0, none⟩] ∧
    countInCluster (reassignCluster dbFromNull 1 (some 2)) 2 = 1 := by
  decide

/-- C5 counterexample: the claim states that after four results with
sentiments 0.5, -0.2, 0.8 and 0.1 are assigned to cluster K, the stored
avg_sentiment of K is 0.3 within a small tolerance. No trigger or view of
the schema ever writes avg_sentiment, so after the four inserts it is
still NULL: no value at all is stored, hence no value within any tolerance
of 0.3. -/
theorem scenario_avg_sentiment_never_written :
    scenarioFour.clusters.map Cluster.avg_sentiment = [none] ∧
    scenarioFour.clusters.map Cluster.size = [4] := by
  decide

/-- C5 amended: after the four inserts the stored size of cluster K is 4,
and after deleting the document whose sentiment is 0.8 the size is 3 and
the result row is gone, as claimed; but avg_sentiment is not maintained by
the schema and remains NULL at both points instead of being the mean of
the member sentiments. -/
theorem scenario_sizes_tracked_average_not :
    scenarioFour.clusters = [⟨1, some 1, 4, none⟩] ∧
    scenarioAfterDelete.clusters = [⟨1, some 1, 3, none⟩] ∧
    scenarioAfterDelete.text_analysis.map TextAnalysisRow.id = [1, 2, 4] := by
  decide

/-- C6 counterexample: the claim states that moving one result from
cluster A at size 5 to cluster B at size 3 yields B at size 5. The trigger
adds one to B, so B ends at size 4, not 5. -/
theorem reassign_five_three_target_size_four :
    (reassignCluster dbFiveThree 1 (some 2)).clusters =
      [⟨1, some 1, 4, none⟩, ⟨2, some 1, 4, none⟩] ∧
    ¬ (reassignCluster dbFiveThree 1 (some 2)).clusters =
      [⟨1, some 1, 4, none⟩, ⟨2, some 1, 5, none⟩] := by
  decide

/-- C6 amended: reassigning one result from cluster A to a distinct
cluster B, both non-null, decrements the size of A by one, increments the
size of B by one, and leaves every cluster with a different id unchanged;
from sizes 5 and 3 the outcome is 4 and 4. -/
theorem reassign_moves_one_between_clusters
    (st : DB) (i a b : Nat) (old : TextAnalysisRow)
    (ca cb : Cluster)
    (hfind : st.text_analysis.find? (fun r => r.id == i) = some old)
    (hold : old.cluster_id = some a)
    (hab : a ≠ b)
    (hca : ca ∈ st.clusters) (hcaid : ca.id = a)
    (hcb : cb ∈ st.clusters) (hcbid : cb.id = b) :
    { ca with size := ca.size - 1 } ∈ (reassignCluster st i (some b)).clusters ∧
    { cb with size := cb.size + 1 } ∈ (reassignCluster st i (some b)).clusters ∧
    ∀ c ∈ st.clusters, c.id ≠ a → c.id ≠ b →
      c ∈ (reassignCluster st i (some b)).clusters := by
  have hne : sqlNeq (some a) (some b) = true := by
    simp [sqlNeq, bne_iff_ne, hab]
  have hcl : (reassignCluster st i (some b)).clusters =
      (st.clusters.map (fun c => if c.id = a then { c with size := c.size + (-1) } else c)).map
        (fun c => if c.id = b then { c with size := c.size + 1 } else c) := by
    simp only [reassignCluster, hfind, hne, if_true, hold, updateClustersSize]
  rw [hcl]
  refine ⟨?_, ?_, ?_⟩
  · have h1 := List.mem_map_of_mem
      (fun c => if c.id = a then { c with size := c.size + (-1) } else c) hca
    have h2 := List.mem_map_of_mem
      (fun c => if c.id = b then { c with size := c.size + 1 } else c) h1
    simpa [hcaid, hab, Ne.symm hab, Int.sub_eq_add_neg] using h2
  · have h1 := List.mem_map_of_mem
      (fun c => if c.id = a then { c with size := c.size + (-1) } else c) hcb
    have h2 := List.mem_map_of_mem
      (fun c => if c.id = b then { c with size := c.size + 1 } else c) h1
    simpa [hcbid, hab, Ne.symm hab] using h2
  · intro c hc hna hnb
    have h1 := List.mem_map_of_mem
      (fun c => if c.id = a then { c with size := c.size + (-1) } else c) hc
    have h2 := List.mem_map_of_mem
      (fun c => if c.id = b then { c with size := c.size + 1 } else c) h1
    simpa [hna, hnb] using h2

/-- C6 witness: the amended theorem applied to the clusters of sizes 5 and
3, with every hypothesis discharged by evaluation. -/
theorem reassign_moves_one_between_clusters_witness :
    ({ id := 1, project_id := some 1, size := 4, avg_sentiment := none } : Cluster) ∈
      (reassignCluster dbFiveThree 1 (some 2)).clusters ∧
    ({ id := 2, project_id := some 1, size := 4, avg_sentiment := none } : Cluster) ∈
      (reassignCluster dbFiveThree 1 (some 2)).clusters := by
  have h := reassign_moves_one_between_clusters dbFiveThree 1 1 2
      ⟨1, none, none, some 1, none⟩
      ⟨1, some 1, 5, none⟩ ⟨2, some 1, 3, none⟩ (by decide) rfl (by decide)
      (by decide) rfl (by decide) rfl
  exact ⟨h.1, h.2.1⟩

/-- C7: on a project with no keywords, no tasks, no clusters and no
reports of its own, the project_stats view returns 0 for each of the five
counts and NULL for the average sentiment; the outer joins keep the
project row alive and COUNT(DISTINCT id) over the NULL-extended row is 0
while AVG over no non-NULL values is NULL. The collected-data and
text-analysis joins hang off the task join, so zero tasks forces both to
the NULL row without further assumptions. -/
theorem project_stats_zero_for_empty_project (db : DB) (p : Project)
    (hk : db.keywords.filter (fun k => k.project_id == some p.id) = [])
    (ht : db.search_tasks.filter (fun s => s.project_id == some p.id) = [])
    (hc : db.clusters.filter (fun c => c.project_id == some p.id) = [])
    (hr : db.reports.filter (fun r => r.project_id == some p.id) = []) :
    project_stats db p = ⟨0, 0, 0, 0, 0, none⟩ := by
  simp only [project_stats, projectStatsRows, leftMatches, hk, ht, hc, hr, List.filter_false,
    List.flatMap_cons, List.flatMap_nil, List.map_cons, List.map_nil, List.append_nil,
    countDistinct, sqlAvg]
  rfl

/-- C7 witness: the theorem applied to a database whose every keyword,
task, cluster and report belongs to another project, with the four
hypotheses discharged by evaluation. -/
theorem project_stats_zero_for_empty_project_witness :
    project_stats dbNoTasks ⟨1, some 1⟩ = ⟨0, 0, 0, 0, 0, none⟩ :=
  project_stats_zero_for_empty_project dbNoTasks ⟨1, some 1⟩
    (by decide) (by decide) (by decide) (by decide)

/-- C8: deleting a document whose single analysis result belongs to
cluster A of size 5 cascades to the result row and fires the AFTER DELETE
branch of the trigger, so the stored state after the deletion has A at
size 4, no result row for the document, and every other cluster
unchanged. -/
theorem delete_document_decrements_cluster
    (st : DB) (d a : Nat) (r : TextAnalysisRow) (ca : Cluster)
    (hv : st.text_analysis.filter (fun x => x.data_id == some d) = [r])
    (hr : r.cluster_id = some a)
    (hca : ca ∈ st.clusters) (hcaid : ca.id = a) (hsize : ca.size = 5) :
    { ca with size := 4 } ∈ (deleteDocument st d).clusters ∧
    (deleteDocument st d).text_analysis.filter (fun x => x.data_id == some d) = [] ∧
    ∀ c ∈ st.clusters, c.id ≠ a → c ∈ (deleteDocument st d).clusters := by
  have hcl : (deleteDocument st d).clusters =
      st.clusters.map (fun c => if c.id = a then { c with size := c.size + (-1) } else c) := by
    simp only [deleteDocument, hv, List.foldl_cons, List.foldl_nil, hr, updateClustersSize]
  have hrows : (deleteDocument st d).text_analysis =
      st.text_analysis.filter (fun x => !(x.data_id == some d)) := by
    simp only [deleteDocument]
  refine ⟨?_, ?_, ?_⟩
  · have h1 := List.mem_map_of_mem
      (fun c => if c.id = a then { c with size := c.size + (-1) } else c) hca
    rw [hcl]
    simpa [hcaid, hsize] using h1
  · rw [hrows, List.filter_filter]
    simp
  · intro c hc hna
    rw [hcl]
    have h1 := List.mem_map_of_mem
      (fun c => if c.id = a then { c with size := c.size + (-1) } else c) hc
    simpa [hna] using h1

/-- C8 witness: the theorem applied to the one-document state with cluster
1 at size 5, with every hypothesis discharged by evaluation. -/
theorem delete_document_decrements_cluster_witness :
    ({ id := 1, project_id := some 1, size := 4, avg_sentiment := none } : Cluster) ∈
      (deleteDocument dbDocDelete 7).clusters ∧
    (deleteDocument dbDocDelete 7).text_analysis.filter (fun x => x.data_id == some 7) = [] := by
  have h := delete_document_decrements_cluster dbDocDelete 7 1
    ⟨1, some 7, none, some 1, none⟩ ⟨1, some 1, 5, none⟩
    (by decide) rfl (by decide) rfl rfl
  exact ⟨h.1, h.2.1⟩

/-- C9: a result whose sentiment_score lies outside [-1, 1] or whose
confidence lies outside [0, 1] is rejected at the Result Store boundary
with ValidationError; the error return carries no state, so nothing is
stored and no aggregate changes. Settled against the spec-modelled
recordResult, the schema itself declaring no CHECK constraints. -/
theorem record_out_of_range_rejected (st : DB) (row : TextAnalysisRow)
    (h : (∃ s, row.sentiment_score = some s ∧ (s < -1 ∨ 1 < s)) ∨
         (∃ c, row.confidence_score = some c ∧ (c < 0 ∨ 1 < c))) :
    recordResult st row = Except.error RecordError.validation := by
  have hf : inRanges row = false := by
    rcases h with ⟨s, hs, hlt | hgt⟩ | ⟨c, hc, hlt | hgt⟩
    · simp [inRanges, hs, not_le.mpr hlt]
    · simp [inRanges, hs, not_le.mpr hgt]
    · simp [inRanges, hc, not_le.mpr hlt]
    · simp [inRanges, hc, not_le.mpr hgt]
  simp [recordResult, hf]

/-- C9 witness: the theorem applied to a result with sentiment_score 1.5,
the out-of-range hypothesis discharged at that value. -/
theorem record_out_of_range_rejected_witness :
    recordResult DB.empty ⟨1, some 7, some ((3:Rat)/2), some 1, some 1⟩ =
      Except.error RecordError.validation :=
  record_out_of_range_rejected DB.empty _ (Or.inl ⟨3/2, rfl, Or.inr (by norm_num)⟩)

/-- C10: cluster sizes can go negative. Inserting a result that names the
not-yet-existing cluster 5 updates no cluster row, creating cluster 5
afterwards starts it at the default size 0, and deleting the result then
decrements it to -1, so non-negativity of size is not an invariant of the
operation set. -/
theorem cluster_size_reaches_minus_one :
    dbNegative.clusters = [⟨5, some 1, -1, none⟩] ∧
    ¬ ∀ c ∈ dbNegative.clusters, 0 ≤ c.size := by
  decide

end AggregationSchema
